import Mathlib

/-!
Shallow embedding of the Nx Gradle plugin's project-graph inference core
(the file defining `createNodes`, `createGradleTargets`, `createInputsMap`,
`cacheableTaskType`, `dependsOnMap`, `calculatedTargets` and the targets
cache), together with proofs about the target rule engine and the node
emitter.

JavaScript `Record`/`Map` values are embedded as association lists with
JS-object update semantics (`recordSet` overwrites an existing key in place,
otherwise appends).  External collaborators (`calculateHashForCreateNodes`,
`getGradleReport`, `offsetFromRoot`/`normalize`, `getGradleBinaryPath`) are
opaque inputs: fallible ones are passed as `Except` values, pure ones as
plain parameters.  An uncaught JavaScript exception is `Except.error`.
-/

namespace GradlePlugin

/-- Lookup in a JS object / Map embedded as an association list. -/
def recordGet {α : Type} (r : List (String × α)) (k : String) : Option α :=
  match r with
  | [] => none
  | (k₁, v) :: rest => if k₁ = k then some v else recordGet rest k

/-- JS object / Map assignment: overwrite an existing key in place, otherwise
append the new binding at the end. -/
def recordSet {α : Type} (r : List (String × α)) (k : String) (v : α) :
    List (String × α) :=
  match r with
  | [] => [(k, v)]
  | (k₁, v₁) :: rest =>
      if k₁ = k then (k₁, v) :: rest else (k₁, v₁) :: recordSet rest k v

/-- A Gradle task as reported by the build report: `{ type, name }`. -/
structure GradleTask where
  type : String
  name : String
deriving Repr, DecidableEq

/-- A produced target configuration.  `cwd` embeds `options.cwd`; `inputs`,
`outputs` and `dependsOn` are `none` when the corresponding field is left
`undefined` by the source. -/
structure TargetConfiguration where
  command : String
  cwd : String
  cache : Bool
  inputs : Option (List String)
  outputs : Option (List String)
  dependsOn : Option (List String)
deriving Repr, DecidableEq

/-- The plugin option object: a property bag of `<taskName>TargetName`
rename entries. -/
abbrev GradlePluginOptions := List (String × String)

/-- The part of `CreateNodesContext` the code consults:
`context.nxJsonConfiguration.namedInputs?.production` is truthy iff the
workspace defines a production named-input preset. -/
structure CreateNodesContext where
  productionDefined : Bool
deriving Repr, DecidableEq

/-- The fixed cacheable-type set `new Set(['Build', 'Verification'])`. -/
def cacheableTaskType : List String := ["Build", "Verification"]

/-- The fixed `dependsOnMap` table keyed by task name. -/
def dependsOnMap (taskName : String) : Option (List String) :=
  if taskName = "build" then some ["^build", "classes"]
  else if taskName = "test" then some ["classes"]
  else if taskName = "classes" then some ["^classes"]
  else none

/-- The `createInputsMap` table: inputs keyed by task name, switching on
whether the workspace has a production named-input preset. -/
def createInputsMap (ctx : CreateNodesContext) (taskName : String) :
    Option (List String) :=
  if taskName = "build" then
    some (if ctx.productionDefined then ["production", "^production"]
          else ["default", "^default"])
  else if taskName = "test" then
    some ["default", if ctx.productionDefined then "^production" else "^default"]
  else if taskName = "classes" then some ["default", "^default"]
  else none

/-- Target-name resolution: `options?.[task.name + 'TargetName'] ?? task.name`. -/
def resolveTargetName (options : Option GradlePluginOptions)
    (taskName : String) : String :=
  match options with
  | none => taskName
  | some opts =>
      match recordGet opts (taskName ++ "TargetName") with
      | some v => v
      | none => taskName

/-- The target configuration built for one task in the loop body of
`createGradleTargets`.  `offsetPath` embeds `normalize(offsetFromRoot
(projectRoot))` and `gradleFile` the binary token from
`getGradleBinaryPath()`.  The ternary `outputs ? [outputs] : undefined`
treats the empty string as falsy. -/
def mkTarget (task : GradleTask) (offsetPath gradleFile : String)
    (ctx : CreateNodesContext) (outputDirs : List (String × String)) :
    TargetConfiguration :=
  { command := offsetPath ++ gradleFile ++ " " ++ task.name
    cwd := "{projectRoot}"
    cache := cacheableTaskType.contains task.type
    inputs := createInputsMap ctx task.name
    outputs :=
      match recordGet outputDirs task.name with
      | some dir => if dir = "" then none else some [dir]
      | none => none
    dependsOn := dependsOnMap task.name }

/-- The pair of records accumulated by the `createGradleTargets` loop. -/
structure TargetsResult where
  targets : List (String × TargetConfiguration)
  targetGroups : List (String × List String)
deriving Repr, DecidableEq

/-- The loop of `createGradleTargets`, one task at a time. -/
def createGradleTargetsAux (tasks : List GradleTask)
    (options : Option GradlePluginOptions) (ctx : CreateNodesContext)
    (offsetPath gradleFile : String) (outputDirs : List (String × String))
    (acc : TargetsResult) : TargetsResult :=
  match tasks with
  | [] => acc
  | task :: rest =>
      createGradleTargetsAux rest options ctx offsetPath gradleFile outputDirs
        { targets := recordSet acc.targets (resolveTargetName options task.name)
            (mkTarget task offsetPath gradleFile ctx outputDirs)
          targetGroups := recordSet acc.targetGroups task.type
            ((recordGet acc.targetGroups task.type).getD [] ++ [task.name]) }

/-- `createGradleTargets(tasks, projectRoot, options, context, outputDirs)`:
the target rule engine. -/
def createGradleTargets (tasks : List GradleTask)
    (options : Option GradlePluginOptions) (ctx : CreateNodesContext)
    (offsetPath gradleFile : String) (outputDirs : List (String × String)) :
    TargetsResult :=
  createGradleTargetsAux tasks options ctx offsetPath gradleFile outputDirs
    { targets := [], targetGroups := [] }

/-- The unit of caching: `{ name, targets, targetGroups }`. -/
structure ProjectTargetsBundle where
  name : String
  targets : List (String × TargetConfiguration)
  targetGroups : List (String × List String)
deriving Repr, DecidableEq

/-- A per-file project contribution.  `targetGroups` is `some` exactly when
the emitted object carries a `targetGroups` key (which happens on the
cache-hit path through the object spread), and `none` when that key is
absent (the cache-miss path builds only `name`, `targets`, `metadata`). -/
structure ProjectDescriptor where
  name : String
  targets : List (String × TargetConfiguration)
  targetGroups : Option (List (String × List String))
  metadata : List String
deriving Repr, DecidableEq

/-- The three shapes a `createNodes` call can return normally:
a bare `return;` (no contribution), the empty object `{}` from the catch
block, or a `projects` record with one project keyed by the project root. -/
inductive NodesResult where
  | undef : NodesResult
  | emptyObj : NodesResult
  | contribution (projectRoot : String) (descriptor : ProjectDescriptor) :
      NodesResult
deriving Repr, DecidableEq

/-- The four lookups supplied by `getGradleReport()`. -/
structure GradleReport where
  gradleProjectToTasksTypeMap : List (String × List (String × String))
  gradleFileToOutputDirsMap : List (String × List (String × String))
  gradleFileToGradleProjectMap : List (String × String)
  gradleProjectToProjectName : List (String × String)
deriving Repr, DecidableEq

/-- The body of `createNodes` for one build file, with the in-process
`calculatedTargets` record passed and returned explicitly.

`hashResult` is the outcome of `calculateHashForCreateNodes` and
`reportResult` the outcome of `getGradleReport()`; both may throw.  The
`try` block of the source starts only after the hash has been computed and
the cache consulted, so a hash failure is returned as `Except.error`
(the exception propagates) while a report failure is caught and becomes
the empty object.  When `gradleProjectToTasksTypeMap` has no entry for the
project, the source calls `.entries()` on `undefined`, which throws inside
the `try` and is caught; when `gradleFileToOutputDirsMap` has no entry the
`outputDirs.get` call inside the loop throws on the first task, so the
result is the empty object unless the task list is empty, in which case the
loop body never runs. -/
def createNodes (gradleFilePath projectRoot : String)
    (options : Option GradlePluginOptions) (ctx : CreateNodesContext)
    (offsetPath gradleFile : String)
    (hashResult : Except String String)
    (targetsCache : List (String × ProjectTargetsBundle))
    (reportResult : Except String GradleReport)
    (calculated : List (String × ProjectTargetsBundle)) :
    Except String (NodesResult × List (String × ProjectTargetsBundle)) :=
  match hashResult with
  | .error e => .error e
  | .ok hash =>
    match recordGet targetsCache hash with
    | some bundle =>
        .ok (.contribution projectRoot
              { name := bundle.name
                targets := bundle.targets
                targetGroups := some bundle.targetGroups
                metadata := ["gradle"] },
             recordSet calculated hash bundle)
    | none =>
      match reportResult with
      | .error _ => .ok (.emptyObj, calculated)
      | .ok report =>
        match recordGet report.gradleFileToGradleProjectMap gradleFilePath with
        | none => .ok (.undef, calculated)
        | some gradleProject =>
          match recordGet report.gradleProjectToProjectName gradleProject with
          | none => .ok (.undef, calculated)
          | some pn =>
            match recordGet report.gradleProjectToTasksTypeMap gradleProject with
            | none => .ok (.emptyObj, calculated)
            | some ttm =>
              match recordGet report.gradleFileToOutputDirsMap gradleFilePath with
              | none =>
                  if ttm.isEmpty then
                    .ok (.contribution projectRoot
                          { name := pn
                            targets := (createGradleTargets
                              (ttm.map (fun p => { type := p.2, name := p.1 }))
                              options ctx offsetPath gradleFile []).targets
                            targetGroups := none
                            metadata := ["gradle"] },
                         recordSet calculated hash
                           { name := pn
                             targets := (createGradleTargets
                               (ttm.map (fun p => { type := p.2, name := p.1 }))
                               options ctx offsetPath gradleFile []).targets
                             targetGroups := (createGradleTargets
                               (ttm.map (fun p => { type := p.2, name := p.1 }))
                               options ctx offsetPath gradleFile []).targetGroups })
                  else .ok (.emptyObj, calculated)
              | some outputDirs =>
                  .ok (.contribution projectRoot
                        { name := pn
                          targets := (createGradleTargets
                            (ttm.map (fun p => { type := p.2, name := p.1 }))
                            options ctx offsetPath gradleFile outputDirs).targets
                          targetGroups := none
                          metadata := ["gradle"] },
                       recordSet calculated hash
                         { name := pn
                           targets := (createGradleTargets
                             (ttm.map (fun p => { type := p.2, name := p.1 }))
                             options ctx offsetPath gradleFile outputDirs).targets
                           targetGroups := (createGradleTargets
                             (ttm.map (fun p => { type := p.2, name := p.1 }))
                             options ctx offsetPath gradleFile outputDirs).targetGroups })

/-! ## Record lemmas -/

/-- Setting a key makes it present with the assigned value. -/
theorem recordGet_recordSet_self {α : Type} (r : List (String × α)) (k : String)
    (v : α) : recordGet (recordSet r k v) k = some v := by
  induction r with
  | nil => simp [recordSet, recordGet]
  | cons p rest ih =>
      obtain ⟨k₁, v₁⟩ := p
      by_cases h : k₁ = k
      · simp [recordSet, recordGet, h]
      · simp [recordSet, recordGet, h, ih]

/-- Setting one key leaves lookups of other keys unchanged. -/
theorem recordGet_recordSet_ne {α : Type} (r : List (String × α)) (k k₂ : String)
    (v : α) (h : k₂ ≠ k) :
    recordGet (recordSet r k v) k₂ = recordGet r k₂ := by
  induction r with
  | nil => simp [recordSet, recordGet, Ne.symm h]
  | cons p rest ih =>
      obtain ⟨k₁, v₁⟩ := p
      by_cases h₁ : k₁ = k
      · subst h₁
        simp [recordSet, recordGet, Ne.symm h]
      · by_cases h₂ : k₁ = k₂
        · subst h₂
          simp [recordSet, recordGet, h, h₁]
        · simp [recordSet, recordGet, h₁, h₂, ih]

/-- Setting a key never removes an existing key. -/
theorem recordGet_recordSet_isSome {α : Type} (r : List (String × α))
    (k k₂ : String) (v : α) (h : (recordGet r k₂).isSome) :
    (recordGet (recordSet r k v) k₂).isSome := by
  by_cases hk : k₂ = k
  · subst hk
    simp [recordGet_recordSet_self]
  · rwa [recordGet_recordSet_ne _ _ _ _ hk]

/-- Setting an absent key appends the binding at the end. -/
theorem recordSet_eq_append {α : Type} (r : List (String × α)) (k : String)
    (v : α) (h : recordGet r k = none) : recordSet r k v = r ++ [(k, v)] := by
  induction r with
  | nil => simp [recordSet]
  | cons p rest ih =>
      obtain ⟨k₁, v₁⟩ := p
      by_cases h₁ : k₁ = k
      · simp [recordGet, h₁] at h
      · simp only [recordGet, h₁, if_false] at h
        simp [recordSet, h₁, ih h]

/-! ## Structure of the targets record built by the rule engine -/

/-- Every entry of the targets record built by the loop either comes from one
of the processed tasks (key = resolved target name, value = the configuration
built for that task) or was already in the accumulator. -/
theorem createGradleTargetsAux_entry (tasks : List GradleTask)
    (options : Option GradlePluginOptions) (ctx : CreateNodesContext)
    (offsetPath gradleFile : String) (outputDirs : List (String × String))
    (acc : TargetsResult) (k : String) (cfg : TargetConfiguration)
    (h : recordGet (createGradleTargetsAux tasks options ctx offsetPath
        gradleFile outputDirs acc).targets k = some cfg) :
    (∃ t ∈ tasks, k = resolveTargetName options t.name ∧
        cfg = mkTarget t offsetPath gradleFile ctx outputDirs) ∨
      recordGet acc.targets k = some cfg := by
  induction tasks generalizing acc with
  | nil => exact Or.inr h
  | cons task rest ih =>
      simp only [createGradleTargetsAux] at h
      rcases ih _ h with ⟨t, ht, hk, hcfg⟩ | h₂
      · exact Or.inl ⟨t, List.mem_cons_of_mem _ ht, hk, hcfg⟩
      · by_cases hk : k = resolveTargetName options task.name
        · subst hk
          rw [recordGet_recordSet_self] at h₂
          exact Or.inl ⟨task, List.mem_cons_self _ _, rfl, (Option.some_inj.mp h₂).symm⟩
        · rw [recordGet_recordSet_ne _ _ _ _ hk] at h₂
          exact Or.inr h₂

/-- Every entry of the targets record returned by `createGradleTargets` comes
from exactly one loop iteration: its key is the resolved target name of some
input task and its value the configuration built for that task. -/
theorem createGradleTargets_entry (tasks : List GradleTask)
    (options : Option GradlePluginOptions) (ctx : CreateNodesContext)
    (offsetPath gradleFile : String) (outputDirs : List (String × String))
    (k : String) (cfg : TargetConfiguration)
    (h : recordGet (createGradleTargets tasks options ctx offsetPath gradleFile
        outputDirs).targets k = some cfg) :
    ∃ t ∈ tasks, k = resolveTargetName options t.name ∧
      cfg = mkTarget t offsetPath gradleFile ctx outputDirs := by
  rcases createGradleTargetsAux_entry tasks options ctx offsetPath gradleFile
      outputDirs _ k cfg h with h₁ | h₂
  · exact h₁
  · simp [recordGet] at h₂

/-- When the resolved target names of the tasks still to process are pairwise
distinct and absent from the accumulator, the loop appends one binding per
task, in input order. -/
theorem createGradleTargetsAux_of_nodup (tasks : List GradleTask)
    (options : Option GradlePluginOptions) (ctx : CreateNodesContext)
    (offsetPath gradleFile : String) (outputDirs : List (String × String))
    (acc : TargetsResult)
    (hdisj : ∀ t ∈ tasks, recordGet acc.targets (resolveTargetName options t.name) = none)
    (hnodup : (tasks.map (fun t => resolveTargetName options t.name)).Nodup) :
    (createGradleTargetsAux tasks options ctx offsetPath gradleFile outputDirs
        acc).targets =
      acc.targets ++ tasks.map (fun t =>
        (resolveTargetName options t.name,
         mkTarget t offsetPath gradleFile ctx outputDirs)) := by
  induction tasks generalizing acc with
  | nil => simp [createGradleTargetsAux]
  | cons task rest ih =>
      rw [List.map_cons, List.nodup_cons] at hnodup
      obtain ⟨hhead, htail⟩ := hnodup
      simp only [createGradleTargetsAux]
      rw [ih]
      · rw [recordSet_eq_append _ _ _ (hdisj task (List.mem_cons_self _ _))]
        simp
      · intro t ht
        rw [recordGet_recordSet_ne]
        · exact hdisj t (List.mem_cons_of_mem _ ht)
        · intro hcontra
          exact hhead (hcontra ▸ List.mem_map_of_mem _ ht)
      · simpa using htail

/-- The fixed cacheable-type set contains exactly "Build" and "Verification". -/
theorem cacheableTaskType_contains_iff (ty : String) :
    cacheableTaskType.contains ty = true ↔ (ty = "Build" ∨ ty = "Verification") := by
  simp [cacheableTaskType]

/-! ## Claims about the target rule engine -/

/-- C1: for every task given to the target rule engine, the produced target's
cache flag is true iff the task's type is "Build" or "Verification".  The
option object is universally quantified and the flag depends only on the
originating task's type, so no user-supplied option can change it. -/
theorem cache_flag_iff_cacheable_type (tasks : List GradleTask)
    (options : Option GradlePluginOptions) (ctx : CreateNodesContext)
    (offsetPath gradleFile : String) (outputDirs : List (String × String))
    (k : String) (cfg : TargetConfiguration)
    (hmem : recordGet (createGradleTargets tasks options ctx offsetPath
        gradleFile outputDirs).targets k = some cfg) :
    ∃ t ∈ tasks, k = resolveTargetName options t.name ∧
      (cfg.cache = true ↔ (t.type = "Build" ∨ t.type = "Verification")) := by
  obtain ⟨t, ht, hk, hcfg⟩ := createGradleTargets_entry tasks options ctx
    offsetPath gradleFile outputDirs k cfg hmem
  subst hcfg
  exact ⟨t, ht, hk, by simp [mkTarget, cacheableTaskType]⟩

/-- Witness for C1 at a task of a non-cacheable type. -/
theorem cache_flag_iff_cacheable_type_witness :
    ∃ t ∈ [({ type := "Documentation", name := "javadoc" } : GradleTask)],
      "javadoc" = resolveTargetName none t.name ∧
      ((mkTarget { type := "Documentation", name := "javadoc" } "./" "gradlew"
          { productionDefined := false } []).cache = true ↔
        (t.type = "Build" ∨ t.type = "Verification")) :=
  cache_flag_iff_cacheable_type
    [{ type := "Documentation", name := "javadoc" }] none
    { productionDefined := false } "./" "gradlew" [] "javadoc"
    (mkTarget { type := "Documentation", name := "javadoc" } "./" "gradlew"
      { productionDefined := false } []) rfl

/-- C2: every produced target's dependsOn is determined solely by the
originating task's name through the fixed table: build gets
["^build", "classes"], test gets ["classes"], classes gets ["^classes"],
any other name leaves the field unset. -/
theorem dependsOn_determined_by_task_name (tasks : List GradleTask)
    (options : Option GradlePluginOptions) (ctx : CreateNodesContext)
    (offsetPath gradleFile : String) (outputDirs : List (String × String))
    (k : String) (cfg : TargetConfiguration)
    (hmem : recordGet (createGradleTargets tasks options ctx offsetPath
        gradleFile outputDirs).targets k = some cfg) :
    ∃ t ∈ tasks, k = resolveTargetName options t.name ∧
      cfg.dependsOn = (if t.name = "build" then some ["^build", "classes"]
        else if t.name = "test" then some ["classes"]
        else if t.name = "classes" then some ["^classes"]
        else none) := by
  obtain ⟨t, ht, hk, hcfg⟩ := createGradleTargets_entry tasks options ctx
    offsetPath gradleFile outputDirs k cfg hmem
  subst hcfg
  exact ⟨t, ht, hk, by simp [mkTarget, dependsOnMap]⟩

/-- Witness for C2 at a task named build. -/
theorem dependsOn_determined_by_task_name_witness :
    ∃ t ∈ [({ type := "Build", name := "build" } : GradleTask)],
      "build" = resolveTargetName none t.name ∧
      (mkTarget { type := "Build", name := "build" } "./" "gradlew"
          { productionDefined := false } []).dependsOn
        = (if t.name = "build" then some ["^build", "classes"]
           else if t.name = "test" then some ["classes"]
           else if t.name = "classes" then some ["^classes"]
           else none) :=
  dependsOn_determined_by_task_name
    [{ type := "Build", name := "build" }] none
    { productionDefined := false } "./" "gradlew" [] "build"
    (mkTarget { type := "Build", name := "build" } "./" "gradlew"
      { productionDefined := false } []) rfl

/-- C3: every produced target's inputs are determined solely by the task's
name and the presence of the workspace "production" named input: build gets
production/^production when the preset is defined and default/^default
otherwise, test always gets default plus ^production or ^default, classes
always gets default/^default, and any other name leaves the field unset. -/
theorem inputs_determined_by_name_and_production (tasks : List GradleTask)
    (options : Option GradlePluginOptions) (ctx : CreateNodesContext)
    (offsetPath gradleFile : String) (outputDirs : List (String × String))
    (k : String) (cfg : TargetConfiguration)
    (hmem : recordGet (createGradleTargets tasks options ctx offsetPath
        gradleFile outputDirs).targets k = some cfg) :
    ∃ t ∈ tasks, k = resolveTargetName options t.name ∧
      cfg.inputs = (if t.name = "build" then
          some (if ctx.productionDefined then ["production", "^production"]
                else ["default", "^default"])
        else if t.name = "test" then
          some ["default",
                if ctx.productionDefined then "^production" else "^default"]
        else if t.name = "classes" then some ["default", "^default"]
        else none) := by
  obtain ⟨t, ht, hk, hcfg⟩ := createGradleTargets_entry tasks options ctx
    offsetPath gradleFile outputDirs k cfg hmem
  subst hcfg
  exact ⟨t, ht, hk, by simp [mkTarget, createInputsMap]⟩

/-- Witness for C3 at a task named test with the production preset defined. -/
theorem inputs_determined_by_name_and_production_witness :
    ∃ t ∈ [({ type := "Verification", name := "test" } : GradleTask)],
      "test" = resolveTargetName none t.name ∧
      (mkTarget { type := "Verification", name := "test" } "./" "gradlew"
          { productionDefined := true } []).inputs
        = (if t.name = "build" then
            some (if ({ productionDefined := true } : CreateNodesContext).productionDefined
                  then ["production", "^production"] else ["default", "^default"])
          else if t.name = "test" then
            some ["default",
                  if ({ productionDefined := true } : CreateNodesContext).productionDefined
                  then "^production" else "^default"]
          else if t.name = "classes" then some ["default", "^default"]
          else none) :=
  inputs_determined_by_name_and_production
    [{ type := "Verification", name := "test" }] none
    { productionDefined := true } "./" "gradlew" [] "test"
    (mkTarget { type := "Verification", name := "test" } "./" "gradlew"
      { productionDefined := true } []) rfl

/-- C6: a target is stored under the overridden name taken from the
`<taskName>TargetName` option entry when it exists, and under the task name
itself otherwise, while the command argument, the inputs lookup and the
dependsOn lookup all use the original task name. -/
theorem target_rename_keeps_original_lookups (tasks : List GradleTask)
    (opts : GradlePluginOptions) (ctx : CreateNodesContext)
    (offsetPath gradleFile : String) (outputDirs : List (String × String))
    (k : String) (cfg : TargetConfiguration)
    (hmem : recordGet (createGradleTargets tasks (some opts) ctx offsetPath
        gradleFile outputDirs).targets k = some cfg) :
    ∃ t ∈ tasks,
      k = (match recordGet opts (t.name ++ "TargetName") with
           | some v => v
           | none => t.name) ∧
      cfg.command = offsetPath ++ gradleFile ++ " " ++ t.name ∧
      cfg.inputs = createInputsMap ctx t.name ∧
      cfg.dependsOn = dependsOnMap t.name := by
  obtain ⟨t, ht, hk, hcfg⟩ := createGradleTargets_entry tasks (some opts) ctx
    offsetPath gradleFile outputDirs k cfg hmem
  subst hcfg
  refine ⟨t, ht, ?_, rfl, rfl, rfl⟩
  simpa [resolveTargetName] using hk

/-- Witness for C6: option buildTargetName = "compile" stores the target
under "compile" while command, inputs and dependsOn still key off "build". -/
theorem target_rename_keeps_original_lookups_witness :
    ∃ t ∈ [({ type := "Build", name := "build" } : GradleTask)],
      "compile" = (match recordGet [("buildTargetName", "compile")]
            (t.name ++ "TargetName") with
          | some v => v
          | none => t.name) ∧
      (mkTarget { type := "Build", name := "build" } "./" "gradlew"
          { productionDefined := false } []).command
        = "./" ++ "gradlew" ++ " " ++ t.name ∧
      (mkTarget { type := "Build", name := "build" } "./" "gradlew"
          { productionDefined := false } []).inputs
        = createInputsMap { productionDefined := false } t.name ∧
      (mkTarget { type := "Build", name := "build" } "./" "gradlew"
          { productionDefined := false } []).dependsOn = dependsOnMap t.name :=
  target_rename_keeps_original_lookups
    [{ type := "Build", name := "build" }] [("buildTargetName", "compile")]
    { productionDefined := false } "./" "gradlew" [] "compile"
    (mkTarget { type := "Build", name := "build" } "./" "gradlew"
      { productionDefined := false } []) rfl

/-- C8 counterexample: the output-directory map has an entry for the task
(the empty string), yet the produced target's outputs field is unset, because
the source guards the field with JavaScript truthiness, not with presence. -/
theorem empty_output_dir_entry_unsets_outputs :
    recordGet [("build", "")] "build" = some "" ∧
    recordGet (createGradleTargets [{ type := "Build", name := "build" }] none
        { productionDefined := false } "./" "gradlew" [("build", "")]).targets
        "build"
      = some { command := "./gradlew build", cwd := "{projectRoot}",
               cache := true, inputs := some ["default", "^default"],
               outputs := none, dependsOn := some ["^build", "classes"] } :=
  ⟨rfl, rfl⟩

/-- C8 as amended: a produced target's outputs is the one-element list of the
entry found in the output-directory map under the task's name when that entry
is a non-empty string; when the entry is absent, or present but equal to the
empty string, the field is unset (never an empty list). -/
theorem outputs_from_output_dir_entry (tasks : List GradleTask)
    (options : Option GradlePluginOptions) (ctx : CreateNodesContext)
    (offsetPath gradleFile : String) (outputDirs : List (String × String))
    (k : String) (cfg : TargetConfiguration)
    (hmem : recordGet (createGradleTargets tasks options ctx offsetPath
        gradleFile outputDirs).targets k = some cfg) :
    ∃ t ∈ tasks, k = resolveTargetName options t.name ∧
      (∀ dir, recordGet outputDirs t.name = some dir → dir ≠ "" →
        cfg.outputs = some [dir]) ∧
      (recordGet outputDirs t.name = none → cfg.outputs = none) ∧
      (recordGet outputDirs t.name = some "" → cfg.outputs = none) := by
  obtain ⟨t, ht, hk, hcfg⟩ := createGradleTargets_entry tasks options ctx
    offsetPath gradleFile outputDirs k cfg hmem
  subst hcfg
  refine ⟨t, ht, hk, ?_, ?_, ?_⟩
  · intro dir hdir hne
    simp [mkTarget, hdir, hne]
  · intro hnone
    simp [mkTarget, hnone]
  · intro hempty
    simp [mkTarget, hempty]

/-- Witness for the amended C8 at a task with a reported output directory. -/
theorem outputs_from_output_dir_entry_witness :
    ∃ t ∈ [({ type := "Build", name := "build" } : GradleTask)],
      "build" = resolveTargetName none t.name ∧
      (∀ dir, recordGet [("build", "build/libs")] t.name = some dir → dir ≠ "" →
        (mkTarget { type := "Build", name := "build" } "./" "gradlew"
            { productionDefined := false } [("build", "build/libs")]).outputs
          = some [dir]) ∧
      (recordGet [("build", "build/libs")] t.name = none →
        (mkTarget { type := "Build", name := "build" } "./" "gradlew"
            { productionDefined := false } [("build", "build/libs")]).outputs
          = none) ∧
      (recordGet [("build", "build/libs")] t.name = some "" →
        (mkTarget { type := "Build", name := "build" } "./" "gradlew"
            { productionDefined := false } [("build", "build/libs")]).outputs
          = none) :=
  outputs_from_output_dir_entry
    [{ type := "Build", name := "build" }] none
    { productionDefined := false } "./" "gradlew" [("build", "build/libs")]
    "build"
    (mkTarget { type := "Build", name := "build" } "./" "gradlew"
      { productionDefined := false } [("build", "build/libs")]) rfl

/-- C9 counterexample: two tasks, with an option renaming the first task's
target to the second task's name, yield a single entry in the targets record:
the second task's assignment overwrites the first's, so the task-to-target
mapping is not a bijection. -/
theorem rename_collision_drops_target :
    (createGradleTargets [{ type := "T", name := "a" }, { type := "T", name := "b" }]
        (some [("aTargetName", "b")]) { productionDefined := false } ""
        "g" []).targets.length = 1
      ∧ ([{ type := "T", name := "a" }, { type := "T", name := "b" }] :
          List GradleTask).length = 2 :=
  ⟨rfl, rfl⟩

/-- C9 as amended: whenever the resolved target names of the input tasks are
pairwise distinct (in particular when no rename option collides with another
task's resolved name and no two tasks share a name), the targets record has
exactly one entry per input task, in input order, keyed by the resolved
target names. -/
theorem targets_bijective_of_distinct_resolved_names (tasks : List GradleTask)
    (options : Option GradlePluginOptions) (ctx : CreateNodesContext)
    (offsetPath gradleFile : String) (outputDirs : List (String × String))
    (hnodup : (tasks.map (fun t => resolveTargetName options t.name)).Nodup) :
    (createGradleTargets tasks options ctx offsetPath gradleFile
        outputDirs).targets
      = tasks.map (fun t => (resolveTargetName options t.name,
          mkTarget t offsetPath gradleFile ctx outputDirs)) := by
  unfold createGradleTargets
  rw [createGradleTargetsAux_of_nodup tasks options ctx offsetPath gradleFile
      outputDirs { targets := [], targetGroups := [] } (fun t _ => rfl) hnodup]
  simp

/-- Witness for the amended C9 on two tasks with distinct names. -/
theorem targets_bijective_of_distinct_resolved_names_witness :
    (createGradleTargets [{ type := "Build", name := "build" },
        { type := "Verification", name := "test" }] none
        { productionDefined := false } "./" "gradlew" []).targets
      = [({ type := "Build", name := "build" } : GradleTask),
         { type := "Verification", name := "test" }].map
          (fun t => (resolveTargetName none t.name,
            mkTarget t "./" "gradlew" { productionDefined := false } [])) :=
  targets_bijective_of_distinct_resolved_names _ _ _ _ _ _ (by decide)

/-! ## Claims about the node emitter -/

/-- C4: on a cache hit the per-file inference returns exactly the cached
bundle plus the fixed technology tag, and writes the bundle into the
in-process record.  The outcome of `getGradleReport` is universally
quantified in the conclusion — the result is the same for every report
outcome, including a throwing one, which formalizes that the build report
adapter is not invoked on this path. -/
theorem cache_hit_returns_cached_bundle (gradleFilePath projectRoot : String)
    (options : Option GradlePluginOptions) (ctx : CreateNodesContext)
    (offsetPath gradleFile h : String)
    (targetsCache : List (String × ProjectTargetsBundle))
    (bundle : ProjectTargetsBundle)
    (calculated : List (String × ProjectTargetsBundle))
    (hhit : recordGet targetsCache h = some bundle) :
    ∀ reportResult : Except String GradleReport,
      createNodes gradleFilePath projectRoot options ctx offsetPath gradleFile
          (.ok h) targetsCache reportResult calculated
        = .ok (.contribution projectRoot
                { name := bundle.name, targets := bundle.targets,
                  targetGroups := some bundle.targetGroups,
                  metadata := ["gradle"] },
               recordSet calculated h bundle) := by
  intro reportResult
  simp [createNodes, hhit]

/-- Witness for C4: a concrete cache hit, with a throwing report adapter. -/
theorem cache_hit_returns_cached_bundle_witness :
    createNodes "a/build.gradle" "a" none { productionDefined := false } "./"
        "gradlew" (.ok "h1")
        [("h1", { name := "app", targets := [],
                  targetGroups := [("Build", ["build"])] })]
        (.error "report failure") []
      = .ok (.contribution "a"
              { name := "app", targets := [],
                targetGroups := some [("Build", ["build"])],
                metadata := ["gradle"] },
             [("h1", { name := "app", targets := [],
                       targetGroups := [("Build", ["build"])] })]) :=
  cache_hit_returns_cached_bundle "a/build.gradle" "a" none
    { productionDefined := false } "./" "gradlew" "h1"
    [("h1", { name := "app", targets := [],
              targetGroups := [("Build", ["build"])] })]
    { name := "app", targets := [], targetGroups := [("Build", ["build"])] }
    [] rfl (.error "report failure")

/-- C5 counterexample: an exception raised by the content hasher is not
caught — the `try` block of the source opens only after hashing and the
cache lookup, so the call propagates the exception to its caller instead of
returning an empty contribution. -/
theorem hash_exception_propagates :
    createNodes "a/build.gradle" "a" none { productionDefined := false } "./"
        "gradlew" (.error "hash failure") [] (.error "unused") []
      = .error "hash failure" := rfl

/-- C5 as amended: once the hash has been computed, no exception escapes the
call (the whole remaining sequence sits inside the try block); in
particular, on a cache miss a throwing `getGradleReport` is caught and
turned into the empty-object contribution with the in-process record left
unchanged.  Exceptions raised by hashing or the cache lookup, which precede
the try block, propagate. -/
theorem exceptions_inside_try_are_caught (gradleFilePath projectRoot : String)
    (options : Option GradlePluginOptions) (ctx : CreateNodesContext)
    (offsetPath gradleFile h e : String)
    (targetsCache calculated : List (String × ProjectTargetsBundle))
    (reportResult : Except String GradleReport) :
    (∃ res st, createNodes gradleFilePath projectRoot options ctx offsetPath
        gradleFile (.ok h) targetsCache reportResult calculated
      = .ok (res, st)) ∧
    (recordGet targetsCache h = none →
      createNodes gradleFilePath projectRoot options ctx offsetPath gradleFile
          (.ok h) targetsCache (.error e) calculated
        = .ok (.emptyObj, calculated)) := by
  constructor
  · unfold createNodes
    repeat' split
    all_goals try exact ⟨_, _, rfl⟩
    all_goals simp_all
  · intro hmiss
    simp [createNodes, hmiss]

/-- Witness for the amended C5: a throwing report adapter on a cache miss
yields the empty contribution. -/
theorem exceptions_inside_try_are_caught_witness :
    createNodes "a/build.gradle" "a" none { productionDefined := false } "./"
        "gradlew" (.ok "h3") [] (.error "gradle report failure") []
      = .ok (.emptyObj, []) :=
  (exceptions_inside_try_are_caught "a/build.gradle" "a" none
      { productionDefined := false } "./" "gradlew" "h3"
      "gradle report failure" [] [] (.error "gradle report failure")).2 rfl

/-- C7 counterexample: on a cache hit, the spread of the cached bundle also
copies its targetGroups key into the emitted project descriptor, so the
descriptor does not consist of exactly the fields name, targets and
metadata. -/
theorem cache_hit_descriptor_carries_targetGroups :
    createNodes "b/build.gradle" "b" none { productionDefined := false } "./"
        "gradlew" (.ok "h2")
        [("h2", { name := "lib", targets := [],
                  targetGroups := [("Build", ["classes"])] })]
        (.error "unused") []
      = .ok (.contribution "b"
              { name := "lib", targets := [],
                targetGroups := some [("Build", ["classes"])],
                metadata := ["gradle"] },
             [("h2", { name := "lib", targets := [],
                       targetGroups := [("Build", ["classes"])] })])
    ∧ ({ name := "lib", targets := [],
         targetGroups := some [("Build", ["classes"])],
         metadata := ["gradle"] } : ProjectDescriptor).targetGroups ≠ none :=
  ⟨rfl, by simp⟩

/-- C7 as amended: every non-absent, non-empty contribution carries the
technology tag, and its descriptor has exactly the fields name, targets and
metadata on the cache-miss path; on the cache-hit path the descriptor is the
cached bundle spread plus the tag, which additionally carries the bundle's
targetGroups field. -/
theorem contribution_descriptor_shape (gradleFilePath projectRoot : String)
    (options : Option GradlePluginOptions) (ctx : CreateNodesContext)
    (offsetPath gradleFile h : String)
    (targetsCache : List (String × ProjectTargetsBundle))
    (reportResult : Except String GradleReport)
    (calculated : List (String × ProjectTargetsBundle))
    (root₂ : String) (d : ProjectDescriptor)
    (st : List (String × ProjectTargetsBundle))
    (heq : createNodes gradleFilePath projectRoot options ctx offsetPath
        gradleFile (.ok h) targetsCache reportResult calculated
      = .ok (.contribution root₂ d, st)) :
    d.metadata = ["gradle"] ∧
      (∀ b, recordGet targetsCache h = some b →
        d = { name := b.name, targets := b.targets,
              targetGroups := some b.targetGroups, metadata := ["gradle"] }) ∧
      (recordGet targetsCache h = none → d.targetGroups = none) := by
  unfold createNodes at heq
  repeat' split at heq
  all_goals simp at heq
  all_goals obtain ⟨⟨hroot, hd⟩, hst⟩ := heq
  all_goals subst hd
  all_goals simp_all

/-- Witness for the amended C7 on a concrete cache-miss contribution. -/
theorem contribution_descriptor_shape_witness :
    ({ name := "app",
       targets := [("build", mkTarget { type := "Build", name := "build" }
         "./" "gradlew" { productionDefined := false } [])],
       targetGroups := none,
       metadata := ["gradle"] } : ProjectDescriptor).metadata = ["gradle"] ∧
      (∀ b, recordGet ([] : List (String × ProjectTargetsBundle)) "h0" = some b →
        ({ name := "app",
           targets := [("build", mkTarget { type := "Build", name := "build" }
             "./" "gradlew" { productionDefined := false } [])],
           targetGroups := none,
           metadata := ["gradle"] } : ProjectDescriptor)
          = { name := b.name, targets := b.targets,
              targetGroups := some b.targetGroups, metadata := ["gradle"] }) ∧
      (recordGet ([] : List (String × ProjectTargetsBundle)) "h0" = none →
        ({ name := "app",
           targets := [("build", mkTarget { type := "Build", name := "build" }
             "./" "gradlew" { productionDefined := false } [])],
           targetGroups := none,
           metadata := ["gradle"] } : ProjectDescriptor).targetGroups = none) :=
  contribution_descriptor_shape "a/build.gradle" "a" none
    { productionDefined := false } "./" "gradlew" "h0" []
    (.ok { gradleProjectToTasksTypeMap := [("proj", [("build", "Build")])],
           gradleFileToOutputDirsMap := [("a/build.gradle", [])],
           gradleFileToGradleProjectMap := [("a/build.gradle", "proj")],
           gradleProjectToProjectName := [("proj", "app")] })
    [] "a"
    { name := "app",
      targets := [("build", mkTarget { type := "Build", name := "build" }
        "./" "gradlew" { productionDefined := false } [])],
      targetGroups := none,
      metadata := ["gradle"] }
    [("h0", { name := "app",
              targets := [("build", mkTarget { type := "Build", name := "build" }
                "./" "gradlew" { productionDefined := false } [])],
              targetGroups := [("Build", ["build"])] })]
    rfl

/-- On any normal return, a cache hit leaves the cached bundle stored in the
in-process record under the hash. -/
theorem createNodes_state_hit (gradleFilePath projectRoot : String)
    (options : Option GradlePluginOptions) (ctx : CreateNodesContext)
    (offsetPath gradleFile h : String)
    (targetsCache : List (String × ProjectTargetsBundle))
    (reportResult : Except String GradleReport)
    (calculated : List (String × ProjectTargetsBundle))
    (res : NodesResult) (st : List (String × ProjectTargetsBundle))
    (b : ProjectTargetsBundle)
    (heq : createNodes gradleFilePath projectRoot options ctx offsetPath
        gradleFile (.ok h) targetsCache reportResult calculated = .ok (res, st))
    (hb : recordGet targetsCache h = some b) :
    recordGet st h = some b := by
  unfold createNodes at heq
  repeat' split at heq
  all_goals simp at heq
  all_goals obtain ⟨h₁, h₂⟩ := heq
  all_goals subst h₂
  all_goals simp_all [recordGet_recordSet_self]

/-- On any normal return that emits a project contribution, the in-process
record holds a bundle under the call's hash. -/
theorem createNodes_state_contribution (gradleFilePath projectRoot : String)
    (options : Option GradlePluginOptions) (ctx : CreateNodesContext)
    (offsetPath gradleFile h : String)
    (targetsCache : List (String × ProjectTargetsBundle))
    (reportResult : Except String GradleReport)
    (calculated : List (String × ProjectTargetsBundle))
    (res : NodesResult) (st : List (String × ProjectTargetsBundle))
    (root₂ : String) (d : ProjectDescriptor)
    (heq : createNodes gradleFilePath projectRoot options ctx offsetPath
        gradleFile (.ok h) targetsCache reportResult calculated = .ok (res, st))
    (hres : res = .contribution root₂ d) :
    (recordGet st h).isSome := by
  unfold createNodes at heq
  repeat' split at heq
  all_goals simp at heq
  all_goals obtain ⟨h₁, h₂⟩ := heq
  all_goals subst h₂
  all_goals simp_all [recordGet_recordSet_self]

/-- A `createNodes` call never removes a key from the in-process record. -/
theorem createNodes_state_mono (gradleFilePath projectRoot : String)
    (options : Option GradlePluginOptions) (ctx : CreateNodesContext)
    (offsetPath gradleFile h : String)
    (targetsCache : List (String × ProjectTargetsBundle))
    (reportResult : Except String GradleReport)
    (calculated : List (String × ProjectTargetsBundle))
    (res : NodesResult) (st : List (String × ProjectTargetsBundle))
    (k : String)
    (heq : createNodes gradleFilePath projectRoot options ctx offsetPath
        gradleFile (.ok h) targetsCache reportResult calculated = .ok (res, st))
    (hk : (recordGet calculated k).isSome) :
    (recordGet st k).isSome := by
  unfold createNodes at heq
  repeat' split at heq
  all_goals simp at heq
  all_goals obtain ⟨h₁, h₂⟩ := heq
  all_goals subst h₂
  all_goals first
    | assumption
    | exact recordGet_recordSet_isSome _ _ _ _ hk

/-- C10: a cache hit records the cached bundle into the in-process record
under the same hash; every call that emits a contribution leaves a bundle
stored under its hash; and no call drops an entry already in the record —
so a wholesale flush of the record keeps the bundles of every successfully
processed file, hits included. -/
theorem calculatedTargets_accumulates (gradleFilePath projectRoot : String)
    (options : Option GradlePluginOptions) (ctx : CreateNodesContext)
    (offsetPath gradleFile h : String)
    (targetsCache : List (String × ProjectTargetsBundle))
    (reportResult : Except String GradleReport)
    (calculated : List (String × ProjectTargetsBundle))
    (res : NodesResult) (st : List (String × ProjectTargetsBundle))
    (heq : createNodes gradleFilePath projectRoot options ctx offsetPath
        gradleFile (.ok h) targetsCache reportResult calculated
      = .ok (res, st)) :
    (∀ b, recordGet targetsCache h = some b → recordGet st h = some b) ∧
      (∀ root₂ d, res = .contribution root₂ d → (recordGet st h).isSome) ∧
      (∀ k, (recordGet calculated k).isSome → (recordGet st k).isSome) :=
  ⟨fun b hb => createNodes_state_hit gradleFilePath projectRoot options ctx
      offsetPath gradleFile h targetsCache reportResult calculated res st b
      heq hb,
   fun root₂ d hres => createNodes_state_contribution gradleFilePath
      projectRoot options ctx offsetPath gradleFile h targetsCache
      reportResult calculated res st root₂ d heq hres,
   fun k hk => createNodes_state_mono gradleFilePath projectRoot options ctx
      offsetPath gradleFile h targetsCache reportResult calculated res st k
      heq hk⟩

/-- Witness for C10 on a concrete cache hit starting from an empty record. -/
theorem calculatedTargets_accumulates_witness :
    (∀ b, recordGet
          [("h4", ({ name := "app", targets := [], targetGroups := [] } :
            ProjectTargetsBundle))] "h4" = some b →
        recordGet
          [("h4", ({ name := "app", targets := [], targetGroups := [] } :
            ProjectTargetsBundle))] "h4" = some b) ∧
      (∀ root₂ d, (NodesResult.contribution "a"
            { name := "app", targets := [], targetGroups := some [],
              metadata := ["gradle"] }) = .contribution root₂ d →
        (recordGet
          [("h4", ({ name := "app", targets := [], targetGroups := [] } :
            ProjectTargetsBundle))] "h4").isSome) ∧
      (∀ k, (recordGet ([] : List (String × ProjectTargetsBundle)) k).isSome →
        (recordGet
          [("h4", ({ name := "app", targets := [], targetGroups := [] } :
            ProjectTargetsBundle))] k).isSome) :=
  calculatedTargets_accumulates "a/build.gradle" "a" none
    { productionDefined := false } "./" "gradlew" "h4"
    [("h4", { name := "app", targets := [], targetGroups := [] })]
    (.error "unused") []
    (.contribution "a"
      { name := "app", targets := [], targetGroups := some [],
        metadata := ["gradle"] })
    [("h4", { name := "app", targets := [], targetGroups := [] })]
    rfl

end GradlePlugin
